import Mathlib

/-!
A shallow embedding of the Go client `client.go` of `bauersimon/go-zsa`, a
thin wrapper around the Keymapp gRPC API, together with theorems settling
the specification claims about it.

Modelling conventions:
* A Go `error` value is `Option String` (`none` is `nil`, `some msg` an
  error whose `Error()` message is `msg`).
* A gRPC call `request(ctx, parameters)` returning `(T, error)` where `T`
  exposes `GetSuccess() bool` is modelled by its observable outcome
  `RPCOutcome`: the success flag of the response and the returned error.
  The client's method fields (`c.client.SetRGBLed`, ...) become function
  parameters `rpc` from the request value to this outcome.
* Methods that issue requests additionally return the list of request
  values they sent, so that theorems can speak about what was issued.
* `runtime.GOOS`, `os.Getenv` and `filepath.Join` are environment inputs
  and are passed as explicit parameters.  `ConnectDefault` is modelled up
  to its call of `Connect path`: the result `Except.ok path` means the
  function proceeds to dial `path`, and `Except.error msg` means it
  returns the error without any transport operation.
-/

namespace ZSA

/-- A Go `error` value: `none` is `nil`. -/
abbrev GoError := Option String

/-- `listPrefixOf pat l` decides whether `pat` is a prefix of `l`
(character lists). -/
def listPrefixOf : List Char → List Char → Bool
  | [], _ => true
  | _ :: _, [] => false
  | a :: as, b :: bs => a == b && listPrefixOf as bs

/-- `charsContains pat l` decides whether `pat` occurs as a contiguous
sublist of `l`. -/
def charsContains (pat : List Char) : List Char → Bool
  | [] => pat.isEmpty
  | c :: rest => listPrefixOf pat (c :: rest) || charsContains pat rest

/-- Go `strings.Contains s pat`: `pat` occurs as a substring of `s`. -/
def strContains (s pat : String) : Bool :=
  charsContains pat.data s.data

/-- The observable outcome of one gRPC invocation `request(ctx, parameters)`:
`success` is `res.GetSuccess()` of the returned response and `err` the
returned Go error (`none` when the transport call succeeded). -/
structure RPCOutcome where
  success : Bool
  err : GoError
deriving Repr, DecidableEq

/-- `wrapSuccessToError` of `client.go`: wraps a gRPC call, converting
unsuccessful responses to errors.  `typeName` is what Go's `%T` prints for
the request value `parameters` (e.g. `*api.SetRGBLedRequest`). -/
def wrapSuccessToError (typeName : String) (call : RPCOutcome) : GoError :=
  match call.err with
  | some e => some e
  | none =>
    if !call.success then
      some ("unsuccessful " ++ typeName)
    else
      none

/-- `api.ConnectKeyboardRequest`. -/
structure ConnectKeyboardRequest where
  id : Int
deriving Repr, DecidableEq

/-- `api.SetRGBLedRequest`. -/
structure SetRGBLedRequest where
  led : Int
  red : Int
  green : Int
  blue : Int
  sustain : Int
deriving Repr, DecidableEq

/-- `api.SetRGBAllRequest`. -/
structure SetRGBAllRequest where
  red : Int
  green : Int
  blue : Int
  sustain : Int
deriving Repr, DecidableEq

/-- `api.SetStatusLedRequest`. -/
structure SetStatusLedRequest where
  led : Int
  «on» : Bool
  sustain : Int
deriving Repr, DecidableEq

/-- A Go `color.Color` value, observed through its `RGBA()` method: the
four channels are alpha-premultiplied `uint32` values, modelled as `Nat`. -/
structure Color where
  r : Nat
  g : Nat
  b : Nat
  a : Nat
deriving Repr, DecidableEq

/-- The `RGBA()` method of `color.Color`. -/
def Color.rgba (c : Color) : Nat × Nat × Nat × Nat := (c.r, c.g, c.b, c.a)

/-- Go's conversion `int32(u)` of a `uint32` value `u` (two's complement
reinterpretation). -/
def int32ofUInt32 (n : Nat) : Int :=
  let m : Nat := n % 2 ^ 32
  if m < 2 ^ 31 then (m : Int) else (m : Int) - 2 ^ 32

/-- `(c *Client) ConnectAnyKeyboard`: the underlying call's outcome is
`call`; an error containing "keyboard already connected" is not returned. -/
def connectAnyKeyboard (call : RPCOutcome) : GoError :=
  let err := wrapSuccessToError "*api.ConnectAnyKeyboardRequest" call
  match err with
  | some e => if !strContains e "keyboard already connected" then some e else none
  | none => none

/-- `(c *Client) ConnectKeyboardIndex`: builds `api.ConnectKeyboardRequest`
with the given id, invokes `c.client.ConnectKeyboard` (modelled by `rpc`)
through the normalizer, and suppresses "keyboard already connected". -/
def connectKeyboardIndex (rpc : ConnectKeyboardRequest → RPCOutcome) (id : Int) : GoError :=
  let err := wrapSuccessToError "*api.ConnectKeyboardRequest" (rpc { id := id })
  match err with
  | some e => if !strContains e "keyboard already connected" then some e else none
  | none => none

/-- `(c *Client) DisconnectKeyboard`: suppresses "no keyboard is
connected". -/
def disconnectKeyboard (call : RPCOutcome) : GoError :=
  let err := wrapSuccessToError "*api.DisconnectKeyboardRequest" call
  match err with
  | some e => if !strContains e "no keyboard is connected" then some e else none
  | none => none

/-- `ConnectDefault` of `client.go`, modelled up to its final call of
`Connect path`: `goos` is `runtime.GOOS`, `getenv` is `os.Getenv`
(returning `""` for an unset variable), and `fpJoin a b c` is
`filepath.Join(a, b, c)`.  `Except.ok path` means the function proceeds to
`Connect path`; `Except.error msg` means it returns the error without
performing any transport operation. -/
def connectDefault (goos : String) (getenv : String → String)
    (fpJoin : String → String → String → String) : Except String String :=
  if goos == "windows" then
    Except.ok "localhost:50051"
  else
    let config_dir := getenv "CONFIG_DIR"
    if config_dir == "" then
      Except.error "environment key \"CONFIG_DIR\" not set"
    else
      Except.ok (fpJoin config_dir ".keymapp" "keymapp.sock")

/-- The `api.SetRGBLedRequest` literal built in the loop body of
`SetRGBLed` for one LED index, from the channels of `color.RGBA()`. -/
def setRGBLedRequest (c : Color) (led : Int) : SetRGBLedRequest :=
  let (r, g, b, _) := c.rgba
  { led := led
    red := int32ofUInt32 r
    green := int32ofUInt32 g
    blue := int32ofUInt32 b
    sustain := 0 }

/-- The `for _, led := range leds` loop of `SetRGBLed`: issues one request
per LED index and collects the error messages of the failed requests (in
order).  Returns (requests issued, error messages collected). -/
def setRGBLedLoop (rpc : SetRGBLedRequest → RPCOutcome) (c : Color) :
    List Int → List SetRGBLedRequest × List String
  | [] => ([], [])
  | led :: rest =>
    let req := setRGBLedRequest c led
    let e := wrapSuccessToError "*api.SetRGBLedRequest" (rpc req)
    let (reqs, errs) := setRGBLedLoop rpc c rest
    match e with
    | some msg => (req :: reqs, msg :: errs)
    | none => (req :: reqs, errs)

/-- Go `errors.Join` restricted to a slice of non-nil errors (as collected
by `SetRGBLed`): `nil` when the slice is empty, otherwise an error whose
message concatenates the messages separated by newlines. -/
def errorsJoin (errs : List String) : GoError :=
  match errs with
  | [] => none
  | _ :: _ => some (String.intercalate "\n" errs)

/-- `(c *Client) SetRGBLed`: issues one request per LED index and joins the
collected errors.  Returns (requests issued, result error). -/
def setRGBLed (rpc : SetRGBLedRequest → RPCOutcome) (c : Color) (leds : List Int) :
    List SetRGBLedRequest × GoError :=
  let run := setRGBLedLoop rpc c leds
  (run.1, errorsJoin run.2)

/-- `(c *Client) SetRGBAll`: one request with the decomposed channels.
Returns (request issued, result error). -/
def setRGBAll (rpc : SetRGBAllRequest → RPCOutcome) (c : Color) :
    SetRGBAllRequest × GoError :=
  let (r, g, b, _) := c.rgba
  let req : SetRGBAllRequest :=
    { red := int32ofUInt32 r
      green := int32ofUInt32 g
      blue := int32ofUInt32 b
      sustain := 0 }
  (req, wrapSuccessToError "*api.SetRGBAllRequest" (rpc req))

/-- `(c *Client) SetStatusLED`.  Returns (request issued, result error). -/
def setStatusLED (rpc : SetStatusLedRequest → RPCOutcome) (led : Int) («on» : Bool) :
    SetStatusLedRequest × GoError :=
  let req : SetStatusLedRequest := { led := led, «on» := «on», sustain := 0 }
  (req, wrapSuccessToError "*api.SetStatusLedRequest" (rpc req))

/-! ## Helper lemmas -/

/-- A list is a prefix of itself. -/
lemma listPrefixOf_refl (l : List Char) : listPrefixOf l l = true := by
  induction l with
  | nil => rfl
  | cons c cs ih => simp [listPrefixOf, ih]

/-- A suffix occurs as a contiguous sublist. -/
lemma charsContains_append_right (pre pat : List Char) :
    charsContains pat (pre ++ pat) = true := by
  induction pre with
  | nil =>
    cases pat with
    | nil => rfl
    | cons c cs => simp [charsContains, listPrefixOf_refl]
  | cons c cs ih =>
    simp [charsContains, ih]

/-- A string contains its own suffix. -/
lemma strContains_append_right (pre pat : String) :
    strContains (pre ++ pat) pat = true := by
  unfold strContains
  rw [String.data_append]
  exact charsContains_append_right pre.data pat.data

/-- The requests issued by the `SetRGBLed` loop: exactly one per supplied
LED index, in order, independently of any failures. -/
lemma setRGBLedLoop_fst (rpc : SetRGBLedRequest → RPCOutcome) (c : Color)
    (leds : List Int) :
    (setRGBLedLoop rpc c leds).1 = leds.map (setRGBLedRequest c) := by
  induction leds with
  | nil => rfl
  | cons led rest ih =>
    simp only [setRGBLedLoop, List.map_cons]
    cases h : wrapSuccessToError "*api.SetRGBLedRequest" (rpc (setRGBLedRequest c led)) with
    | some msg => simpa [h] using ih
    | none => simpa [h] using ih

/-- The error messages collected by the `SetRGBLed` loop: exactly the
normalizer errors of the failing requests, in order. -/
lemma setRGBLedLoop_snd (rpc : SetRGBLedRequest → RPCOutcome) (c : Color)
    (leds : List Int) :
    (setRGBLedLoop rpc c leds).2 =
      leds.filterMap
        (fun led => wrapSuccessToError "*api.SetRGBLedRequest" (rpc (setRGBLedRequest c led))) := by
  induction leds with
  | nil => rfl
  | cons led rest ih =>
    simp only [setRGBLedLoop, List.filterMap_cons]
    cases h : wrapSuccessToError "*api.SetRGBLedRequest" (rpc (setRGBLedRequest c led)) with
    | some msg => simpa [h] using ih
    | none => simpa [h] using ih

/-! ## Claim theorems -/

/-- C1: when the RPC invocation succeeds at the transport level
(`err = none`) but the response's success indicator is false,
`wrapSuccessToError` returns a non-nil error whose message names the
request's type (the `%T` rendering of the parameters). -/
theorem wrap_success_false_names_type (typeName : String) :
    wrapSuccessToError typeName { success := false, err := none } =
      some ("unsuccessful " ++ typeName) ∧
    strContains ("unsuccessful " ++ typeName) typeName = true :=
  ⟨rfl, strContains_append_right "unsuccessful " typeName⟩

/-- C2: `wrapSuccessToError` returns nil exactly when the invocation
succeeds at the transport level and the response's success indicator is
true; a transport-level failure is returned unchanged. -/
theorem wrap_nil_iff_success (typeName e : String) (s : Bool) (o : RPCOutcome) :
    (wrapSuccessToError typeName o = none ↔ o.err = none ∧ o.success = true) ∧
    wrapSuccessToError typeName { success := s, err := some e } = some e := by
  constructor
  · cases o with
    | mk s' e' => cases e' <;> cases s' <;> simp [wrapSuccessToError]
  · rfl

/-- C3: on a non-Windows platform with `CONFIG_DIR` unset (Go's
`os.Getenv` returns the empty string), `ConnectDefault` returns a
descriptive error; the `Except.error` result means `Connect` is never
reached, so no transport operation is performed. -/
theorem connectDefault_unset_env_fails (goos : String) (getenv : String → String)
    (fpJoin : String → String → String → String)
    (hgoos : goos ≠ "windows") (henv : getenv "CONFIG_DIR" = "") :
    connectDefault goos getenv fpJoin =
      Except.error "environment key \"CONFIG_DIR\" not set" := by
  simp [connectDefault, hgoos, henv]

/-- Witness for C3 at a concrete environment. -/
theorem connectDefault_unset_env_fails_witness :
    connectDefault "linux" (fun _ => "")
        (fun a b c => a ++ "/" ++ b ++ "/" ++ c) =
      Except.error "environment key \"CONFIG_DIR\" not set" :=
  connectDefault_unset_env_fails "linux" (fun _ => "")
    (fun a b c => a ++ "/" ++ b ++ "/" ++ c) (by decide) rfl

/-- C4: `ConnectDefault` selects the endpoint by platform: on Windows it
dials the fixed loopback address, and on any other platform with
`CONFIG_DIR` set it dials `filepath.Join(CONFIG_DIR, ".keymapp",
"keymapp.sock")`. -/
theorem connectDefault_platform_endpoint (goos : String) (getenv : String → String)
    (fpJoin : String → String → String → String) :
    connectDefault "windows" getenv fpJoin = Except.ok "localhost:50051" ∧
    (goos ≠ "windows" → getenv "CONFIG_DIR" ≠ "" →
      connectDefault goos getenv fpJoin =
        Except.ok (fpJoin (getenv "CONFIG_DIR") ".keymapp" "keymapp.sock")) := by
  refine ⟨rfl, fun hg he => ?_⟩
  simp [connectDefault, hg, he]

/-- C5: `ConnectAnyKeyboard` and `ConnectKeyboardIndex` suppress an error
from the normalizer whose message contains "keyboard already connected"
(returning nil), and return every other error unchanged; a nil result from
the normalizer stays nil. -/
theorem connect_suppresses_already_connected (msg : String) (o : RPCOutcome)
    (id : Int) (rpc : ConnectKeyboardRequest → RPCOutcome) :
    (wrapSuccessToError "*api.ConnectAnyKeyboardRequest" o = some msg →
      connectAnyKeyboard o =
        if strContains msg "keyboard already connected" then none else some msg) ∧
    (wrapSuccessToError "*api.ConnectAnyKeyboardRequest" o = none →
      connectAnyKeyboard o = none) ∧
    (wrapSuccessToError "*api.ConnectKeyboardRequest" (rpc { id := id }) = some msg →
      connectKeyboardIndex rpc id =
        if strContains msg "keyboard already connected" then none else some msg) ∧
    (wrapSuccessToError "*api.ConnectKeyboardRequest" (rpc { id := id }) = none →
      connectKeyboardIndex rpc id = none) := by
  refine ⟨fun h => ?_, fun h => ?_, fun h => ?_, fun h => ?_⟩ <;>
    simp only [connectAnyKeyboard, connectKeyboardIndex, h] <;>
    cases hc : strContains msg "keyboard already connected" <;> simp [hc]

/-- C6: `DisconnectKeyboard` suppresses an error from the normalizer whose
message contains "no keyboard is connected" (returning nil), and returns
every other error unchanged; a nil result from the normalizer stays nil. -/
theorem disconnect_suppresses_not_connected (msg : String) (o : RPCOutcome) :
    (wrapSuccessToError "*api.DisconnectKeyboardRequest" o = some msg →
      disconnectKeyboard o =
        if strContains msg "no keyboard is connected" then none else some msg) ∧
    (wrapSuccessToError "*api.DisconnectKeyboardRequest" o = none →
      disconnectKeyboard o = none) := by
  constructor
  · intro h
    simp only [disconnectKeyboard, h]
    cases hc : strContains msg "no keyboard is connected" <;> simp [hc]
  · intro h
    simp [disconnectKeyboard, h]

/-- C7: `SetRGBLed` issues exactly one request per supplied LED index
(independently of failures), returns nil exactly when no request failed,
and when exactly one request fails the result is a non-nil error carrying
that failure's message. -/
theorem setRGBLed_issues_all_and_aggregates (rpc : SetRGBLedRequest → RPCOutcome)
    (c : Color) (leds : List Int) (e : String) :
    (setRGBLed rpc c leds).1 = leds.map (setRGBLedRequest c) ∧
    ((setRGBLed rpc c leds).2 = none ↔
      leds.filterMap
        (fun led =>
          wrapSuccessToError "*api.SetRGBLedRequest" (rpc (setRGBLedRequest c led))) = []) ∧
    (leds.filterMap
        (fun led =>
          wrapSuccessToError "*api.SetRGBLedRequest" (rpc (setRGBLedRequest c led))) = [e] →
      (setRGBLed rpc c leds).2 = some e) := by
  refine ⟨?_, ?_, fun h => ?_⟩
  · simpa [setRGBLed] using setRGBLedLoop_fst rpc c leds
  · simp only [setRGBLed, setRGBLedLoop_snd]
    cases hfm : leds.filterMap
        (fun led =>
          wrapSuccessToError "*api.SetRGBLedRequest" (rpc (setRGBLedRequest c led))) <;>
      simp [errorsJoin, hfm]
  · simp only [setRGBLed, setRGBLedLoop_snd, h]
    rfl

/-- C8: the requests built by `SetRGBLed` and `SetRGBAll` carry the red,
green and blue channels of `color.RGBA()` separately (converted with Go's
`int32` conversion), and every request built by `SetRGBLed`, `SetRGBAll`
and `SetStatusLED` has sustain zero. -/
theorem rgb_requests_decompose_and_sustain_zero (c : Color) (led : Int) (b : Bool)
    (rpcL : SetRGBLedRequest → RPCOutcome) (rpcA : SetRGBAllRequest → RPCOutcome)
    (rpcS : SetStatusLedRequest → RPCOutcome) (leds : List Int) :
    (setRGBLed rpcL c leds).1 =
      leds.map (fun l =>
        { led := l, red := int32ofUInt32 c.r, green := int32ofUInt32 c.g,
          blue := int32ofUInt32 c.b, sustain := 0 }) ∧
    (setRGBAll rpcA c).1 =
      { red := int32ofUInt32 c.r, green := int32ofUInt32 c.g,
        blue := int32ofUInt32 c.b, sustain := 0 } ∧
    (setStatusLED rpcS led b).1 = { led := led, «on» := b, sustain := 0 } := by
  refine ⟨?_, rfl, rfl⟩
  simpa [setRGBLed] using setRGBLedLoop_fst rpcL c leds

/-- C9: the benign-error post-filter matches by substring on the error's
message: even a transport-level failure (`err = some e`, which the
normalizer returns unchanged) whose message contains the benign substring
is suppressed and the method returns nil. -/
theorem benign_filter_matches_transport_errors (e : String) (s : Bool) (id : Int) :
    (strContains e "keyboard already connected" = true →
      connectAnyKeyboard { success := s, err := some e } = none) ∧
    (strContains e "keyboard already connected" = true →
      connectKeyboardIndex (fun _ => { success := s, err := some e }) id = none) ∧
    (strContains e "no keyboard is connected" = true →
      disconnectKeyboard { success := s, err := some e } = none) := by
  refine ⟨fun h => ?_, fun h => ?_, fun h => ?_⟩ <;>
    simp [connectAnyKeyboard, connectKeyboardIndex, disconnectKeyboard,
      wrapSuccessToError, h]

/-- C10: `SetRGBLed` with an empty list of LED indices issues no requests
and returns nil. -/
theorem setRGBLed_empty (rpc : SetRGBLedRequest → RPCOutcome) (c : Color) :
    setRGBLed rpc c [] = ([], none) := rfl

end ZSA
